import Mathlib

/-!
Verification development for the ai-research-assistant repository.

Shallow embedding of the Python sources under backend/ : the agent control
loop and routing decision (backend/agent/graph.py, backend/agent/state.py),
the process configuration (backend/config.py), and the four tool adapters
(backend/tools/arxiv_tool.py, web_search_tool.py, course_finder_tool.py,
summarization_tool.py).

External collaborators (the language model, the arXiv client, the DuckDuckGo
search engine, the network and PDF parser) are modelled as explicit inputs:
a possibly failing outcome value or a response oracle function. Fallible
Python code is embedded with Except or an outcome sum type; text is String
(page text in the summarizer is List Char so that length and truncation
reason cleanly); Python floats that are only stored, never computed with,
are embedded as rationals.
-/

/-- Role tag of a conversation message (human input, assistant output,
tool result), mirroring the langchain message classes used by the code. -/
inductive Role where
  | human
  | assistant
  | tool
deriving DecidableEq

/-- One tool-invocation request emitted by the model: a tool name and a
structured argument payload (embedded as an association list). -/
structure ToolCall where
  name : String
  args : List (String × String)
deriving DecidableEq

/-- A conversation message. The tool_calls field is an Option: langchain
AIMessage objects carry a tool_calls attribute (possibly an empty list)
while human and tool messages do not, which is what the hasattr check in
should_continue inspects. -/
structure Message where
  role : Role
  content : String
  tool_calls : Option (List ToolCall)
deriving DecidableEq

/-- AgentState from backend/agent/state.py: the conversation history under
the add_messages append reducer, plus the iteration counter. -/
structure AgentState where
  messages : List Message
  iterations : Nat
deriving DecidableEq

/-- Settings from backend/config.py with its field defaults. The sampling
temperature 0.7 is embedded as the rational 7/10. -/
structure Settings where
  groq_api_key : String
  google_api_key : String
  llm_model : String := "gemini-2.5-flash"
  llm_temperature : ℚ := (7 : ℚ) / 10
  max_iterations : Nat := 10
  api_title : String := "AI Research Assistant"
  api_version : String := "1.0.0"
deriving DecidableEq

/-- Environment as read by pydantic BaseSettings: the two credential keys
are required, every other field may be absent and then falls back to the
default declared in Settings. -/
structure Env where
  groq_api_key : String
  google_api_key : String
  llm_model : Option String
  llm_temperature : Option ℚ
  max_iterations : Option Nat
  api_title : Option String
  api_version : Option String
deriving DecidableEq

/-- Construction of a Settings instance from the environment, as pydantic
performs it when Settings() is evaluated. -/
def Settings.fromEnv (e : Env) : Settings where
  groq_api_key := e.groq_api_key
  google_api_key := e.google_api_key
  llm_model := e.llm_model.getD "gemini-2.5-flash"
  llm_temperature := e.llm_temperature.getD ((7 : ℚ) / 10)
  max_iterations := e.max_iterations.getD 10
  api_title := e.api_title.getD "AI Research Assistant"
  api_version := e.api_version.getD "1.0.0"

/-- Process-wide state relevant to get_settings: the ambient environment
and the lru_cache memo cell of the decorated function. -/
structure ProcState where
  env : Env
  settings_cache : Option Settings
deriving DecidableEq

/-- Embedding of get_settings from backend/config.py. The lru_cache
decorator on a zero-argument function means: if a cached instance exists
it is returned unchanged, otherwise Settings is constructed from the
environment once and stored. State passing is explicit. -/
def get_settings (s : ProcState) : Settings × ProcState :=
  match s.settings_cache with
  | some v => (v, s)
  | none =>
    let v := Settings.fromEnv s.env
    (v, { s with settings_cache := some v })

/-- Truthiness of the Python expression
hasattr(last_message, "tool_calls") and last_message.tool_calls :
the attribute must exist and the list must be nonempty. -/
def has_tool_calls (m : Message) : Bool :=
  match m.tool_calls with
  | some tcs => !tcs.isEmpty
  | none => false

/-- Embedding of should_continue from backend/agent/graph.py. The module
level settings global is passed explicitly. Python messages[-1] raises an
IndexError on an empty history; that fault is modelled by the none result,
so the routing value proper is some "tools" or some "end". -/
def should_continue (settings : Settings) (state : AgentState) : Option String :=
  match state.messages.getLast? with
  | none => none
  | some last_message =>
    if state.iterations > settings.max_iterations then
      some "end"
    else if has_tool_calls last_message then
      some "tools"
    else
      some "end"

/-- Names of the four tool adapters defined under backend/tools/. -/
inductive Tool where
  | search_arxiv
  | search_web
  | find_learning_resources
  | summarize_paper
deriving DecidableEq

/-- Embedding of the module level list tools = [search_arxiv, search_web]
at backend/agent/graph.py line 18. -/
def tools : List Tool := [Tool.search_arxiv, Tool.search_web]

/-- Constructor arguments of the ChatGoogleGenerativeAI model object built
in backend/agent/graph.py. -/
structure ChatGoogleGenerativeAI where
  model : String
  temperature : ℚ
  google_api_key : String
  convert_system_message_to_human : Bool
deriving DecidableEq

/-- A model object together with the closed set of tool adapters bound to
it, the result of a bind_tools call. -/
structure BoundLLM where
  base : ChatGoogleGenerativeAI
  bound_tools : List Tool
deriving DecidableEq

/-- Embedding of llm = ChatGoogleGenerativeAI(...) from graph.py, with the
module level settings passed explicitly. -/
def llm (settings : Settings) : ChatGoogleGenerativeAI where
  model := settings.llm_model
  temperature := settings.llm_temperature
  google_api_key := settings.google_api_key
  convert_system_message_to_human := true

/-- Embedding of the bind_tools method: it records the declared tool set
on the model object. -/
def bind_tools (l : ChatGoogleGenerativeAI) (ts : List Tool) : BoundLLM where
  base := l
  bound_tools := ts

/-- Embedding of llm_with_tools = llm.bind_tools(tools) from graph.py
line 28. -/
def llm_with_tools (settings : Settings) : BoundLLM :=
  bind_tools (llm settings) tools

/-- One assistant response from the language model: content text plus the
list of tool-invocation requests it carries. -/
structure AIOutput where
  content : String
  tool_calls : List ToolCall
deriving DecidableEq

/-- The AIMessage a model response contributes to the history: role
assistant, with the tool_calls attribute present. -/
def AIOutput.toMessage (o : AIOutput) : Message where
  role := Role.assistant
  content := o.content
  tool_calls := some o.tool_calls

/-- Embedding of the ToolNode execution step: every tool call requested by
the response is executed in request order and each result is appended to
the history as one tool message. The executor function stands for the
external tool adapters. -/
def tool_node_run (toolExec : ToolCall → String) (response : Message) : List Message :=
  (response.tool_calls.getD []).map
    (fun tc => { role := Role.tool, content := toolExec tc, tool_calls := none })

/-- Embedding of the compiled LangGraph agent built by
create_research_agent in graph.py: starting from a state, run llm_node
(one oracle response appended, iteration counter incremented), ask
should_continue, and while it selects "tools" run the tool node and loop
back to llm_node. The oracle is the language model as a function of the
conversation history. Termination is proved from the iteration ceiling:
whenever should_continue selects "tools" the incremented counter is at
most max_iterations, so the measure max_iterations + 1 - iterations
decreases. -/
def research_agent_invoke (settings : Settings) (oracle : List Message → AIOutput)
    (toolExec : ToolCall → String) (state : AgentState) : AgentState :=
  if h : should_continue settings
      ⟨state.messages ++ [AIOutput.toMessage (oracle state.messages)],
        state.iterations + 1⟩ = some "tools" then
    research_agent_invoke settings oracle toolExec
      ⟨(state.messages ++ [AIOutput.toMessage (oracle state.messages)])
          ++ tool_node_run toolExec (AIOutput.toMessage (oracle state.messages)),
        state.iterations + 1⟩
  else
    ⟨state.messages ++ [AIOutput.toMessage (oracle state.messages)],
      state.iterations + 1⟩
termination_by settings.max_iterations + 1 - state.iterations
decreasing_by
  simp only [should_continue, List.getLast?_concat] at h
  by_cases hgt : state.iterations + 1 > settings.max_iterations
  · simp [hgt] at h
  · omega

/-- Result record of run_research_query. -/
structure QueryResult where
  response : String
  iterations : Nat
  success : Bool
deriving DecidableEq

/-- Initial state seeded by run_research_query: one human message carrying
the query, iteration counter 0. -/
def initial_state (query : String) : AgentState where
  messages := [{ role := Role.human, content := query, tool_calls := none }]
  iterations := 0

/-- Embedding of run_research_query from graph.py. The compiled agent
invocation is a parameter returning Except: an uncaught exception from the
model call, a tool, or the graph machinery is the error case, and the
try/except at this outermost boundary converts it into a success = false
record with iterations 0. Python extracts result["messages"][-1] inside
the try block, so an empty history would also surface as the caught
IndexError text. -/
def run_research_query (invoke : AgentState → Except String AgentState)
    (query : String) : QueryResult :=
  match invoke (initial_state query) with
  | Except.ok result =>
    match result.messages.getLast? with
    | some final_message =>
      { response := final_message.content, iterations := result.iterations, success := true }
    | none =>
      { response := "I encountered an error: list index out of range. Please try rephrasing your question.",
        iterations := 0, success := false }
  | Except.error e =>
    { response := "I encountered an error: " ++ e ++ ". Please try rephrasing your question.",
      iterations := 0, success := false }

/-- Number of assistant messages in a history. -/
def assistant_count (msgs : List Message) : Nat :=
  msgs.countP (fun m => decide (m.role = Role.assistant))

/-- One arXiv paper as produced by the arxiv client library. The published
date is kept as its formatted text. -/
structure Paper where
  title : String
  authors : List String
  published : String
  summary : String
  pdf_url : String
  entry_id : String
  categories : List String
deriving DecidableEq

/-- Author line of one paper entry: the first three author names, plus a
more marker when further authors exist, joined with commas, as built in
search_arxiv. -/
def format_authors (authors : List String) : String :=
  let names := authors.take 3
  let names :=
    if authors.length > 3 then
      names ++ ["... +" ++ toString (authors.length - 3) ++ " more"]
    else
      names
  String.intercalate ", " names

/-- The record built for one paper inside search_arxiv. -/
structure FormattedPaper where
  title : String
  authors : String
  published : String
  summary : String
  pdf_url : String
  arxiv_url : String
  categories : String
deriving DecidableEq

/-- Field extraction for one paper in the search_arxiv results loop. -/
def paper_record (p : Paper) : FormattedPaper where
  title := p.title.trim
  authors := format_authors p.authors
  published := p.published
  summary := ((p.summary.replace "\n" " ").trim.take 300) ++ "..."
  pdf_url := p.pdf_url
  arxiv_url := p.entry_id
  categories := String.intercalate ", " (p.categories.take 3)

/-- Output lines for one enumerated paper entry. -/
def paper_lines (i : Nat) (p : FormattedPaper) : List String :=
  ["\n" ++ toString i ++ ". **" ++ p.title ++ "**",
   "   📅 Published: " ++ p.published,
   "   👥 Authors: " ++ p.authors,
   "   🏷️  Categories: " ++ p.categories,
   "   📄 Summary: " ++ p.summary,
   "   🔗 PDF: " ++ p.pdf_url,
   "   🔗 arXiv: " ++ p.arxiv_url]

/-- Papers actually fetched by search_arxiv: the requested count is first
clamped with min(max_results, 10) and the arxiv client is modelled as
yielding at most that many papers from the stream of all matches. -/
def search_arxiv_results (max_results : Int) (stream : List Paper) : List Paper :=
  stream.take (min max_results 10).toNat

/-- Embedding of search_arxiv from backend/tools/arxiv_tool.py. The world
argument is the outcome of the external arXiv call: a stream of matching
papers, or a raised exception with its text. The whole body sits inside
try/except Exception, so the fault case is returned as descriptive text. -/
def search_arxiv (query : String) (max_results : Int)
    (world : Except String (List Paper)) : String :=
  match world with
  | Except.error e =>
    "Error searching arXiv: " ++ e ++ ". Please try again with a different query."
  | Except.ok stream =>
    let results := (search_arxiv_results max_results stream).map paper_record
    if results.isEmpty then
      "No papers found for query: \x27" ++ query ++ "\x27. Try different keywords or broader terms."
    else
      let output := ["Found " ++ toString results.length ++ " research papers for \x27"
          ++ query ++ "\x27:\n"]
        ++ (results.enum.map (fun ip => paper_lines (ip.1 + 1) ip.2)).flatten
      String.intercalate "\n" output

/-- One DuckDuckGo result dictionary; absent keys are the none case. -/
structure WebResult where
  title : Option String
  href : Option String
  body : Option String
deriving DecidableEq

/-- Output lines for one enumerated web search result. -/
def web_result_lines (i : Nat) (r : WebResult) : List String :=
  let title := r.title.getD "No title"
  let url := r.href.getD "No URL"
  let body := r.body.getD "No description"
  ["\n" ++ toString i ++ ". **" ++ title ++ "**",
   "   🔗 " ++ url,
   "   📝 " ++ body.take 200 ++ (if body.length > 200 then "..." else "")]

/-- Results actually fetched by search_web: the requested count is clamped
with min(max_results, 10) and the DDGS text call is modelled as yielding
at most that many results from the stream of all matches. -/
def search_web_results (max_results : Int) (stream : List WebResult) : List WebResult :=
  stream.take (min max_results 10).toNat

/-- Embedding of search_web from backend/tools/web_search_tool.py; the
world argument is the outcome of the external DDGS call, and the
try/except Exception boundary converts a fault into descriptive text. -/
def search_web (query : String) (max_results : Int)
    (world : Except String (List WebResult)) : String :=
  match world with
  | Except.error e =>
    "Error searching web: " ++ e ++ ". Please try again."
  | Except.ok stream =>
    let results := search_web_results max_results stream
    if results.isEmpty then
      "No web results found for query: \x27" ++ query
        ++ "\x27. Try rephrasing or using different keywords."
    else
      let output := ["Found " ++ toString results.length ++ " web results for \x27"
          ++ query ++ "\x27:\n"]
        ++ (results.enum.map (fun ir => web_result_lines (ir.1 + 1) ir.2)).flatten
      String.intercalate "\n" output

/-- Truthiness of the Python substring test needle in haystack, decided on
the underlying character lists. -/
def str_contains (haystack needle : String) : Bool :=
  decide (needle.toList <:+: haystack.toList)

/-- Quality domain list from find_learning_resources. -/
def quality_domains : List String :=
  ["coursera.org", "edx.org", "udacity.com", "mit.edu", "stanford.edu",
   "youtube.com", "github.com", "medium.com", "towardsdatascience.com",
   "kaggle.com", "fast.ai", "deeplearning.ai"]

/-- Embedding of the search_queries dictionary built inside
find_learning_resources: a lookup that succeeds exactly on the four known
resource types. -/
def search_queries (topic : String) (resource_type : String) : Option String :=
  if resource_type = "courses" then
    some (topic ++ " online course Coursera edX Udacity")
  else if resource_type = "tutorials" then
    some (topic ++ " tutorial documentation getting started")
  else if resource_type = "books" then
    some ("best " ++ topic ++ " books textbook O\x27Reilly Manning")
  else if resource_type = "videos" then
    some (topic ++ " video lecture tutorial YouTube")
  else
    none

/-- The query actually run: search_queries.get(resource_type, default)
where the default is the courses entry of the dictionary. -/
def resource_query (topic : String) (resource_type : String) : String :=
  (search_queries topic resource_type).getD (topic ++ " online course Coursera edX Udacity")

/-- Output lines for one enumerated learning resource. -/
def resource_lines (i : Nat) (r : WebResult) : List String :=
  let title := r.title.getD "No title"
  let url := r.href.getD "No URL"
  let snippet := (r.body.getD "No description").take 150
  let badge := if quality_domains.any (fun d => str_contains url d) then "⭐ " else ""
  [toString i ++ ". " ++ badge ++ "**" ++ title ++ "**",
   "   🔗 " ++ url,
   "   📝 " ++ snippet ++ "...\n"]

/-- Embedding of find_learning_resources from
backend/tools/course_finder_tool.py. The world argument models the DDGS
engine as a function from the crafted query text to the outcome of the
call (the stream of matches, limited by the library to max_results = 8,
or a raised exception). The try/except Exception boundary converts a
fault into descriptive text. -/
def find_learning_resources (topic : String) (resource_type : String)
    (world : String → Except String (List WebResult)) : String :=
  match world (resource_query topic resource_type) with
  | Except.error e =>
    "❌ Error finding resources: " ++ e
  | Except.ok stream =>
    let results := stream.take 8
    if results.isEmpty then
      "No " ++ resource_type ++ " found for \x27" ++ topic ++ "\x27"
    else
      let quality_results := results.filter
        (fun r => quality_domains.any (fun d => str_contains (r.href.getD "") d))
      let other_results := results.filter (fun r => !(quality_results.contains r))
      let ranked_results := quality_results.take 5 ++ other_results.take 3
      let output := ["🎓 **Learning Resources: " ++ topic ++ "** (" ++ resource_type ++ ")\n"]
        ++ ((ranked_results.take 6).enum.map (fun ir => resource_lines (ir.1 + 1) ir.2)).flatten
      String.intercalate "\n" output

/-- Outcome of the download and parse phase of summarize_paper: a raised
requests exception, a raised PyPDF2 read exception, or the parsed list of
page texts. Page text is List Char so that length and slicing reason over
standard list lemmas. -/
inductive SummarizeOutcome where
  | request_error (e : String)
  | pdf_read_error (e : String)
  | ok (pages : List (List Char))

/-- External world of summarize_paper: the fetch plus parse of a PDF URL,
and the single shot summarization model call on a prompt, which may itself
raise (caught by the generic except Exception clause). -/
structure SummarizeWorld where
  fetch : String → SummarizeOutcome
  llm_call : String → Except String String

/-- Page extraction step of summarize_paper: text of the first
num_pages = min(len(pages), 10) pages. -/
def extracted_pages (pages : List (List Char)) : List (List Char) :=
  pages.take (min pages.length 10)

/-- Suffix appended when the extracted text is truncated. -/
def truncated_suffix : List Char :=
  "\n\n[Content truncated due to length...]".toList

/-- Length bounding step of summarize_paper: text longer than 30000
characters is cut to its first 30000 characters and the truncation notice
is appended. -/
def bounded_text (t : List Char) : List Char :=
  if t.length > 30000 then t.take 30000 ++ truncated_suffix else t

/-- Embedding of the focus_prompts dictionary of summarize_paper. -/
def focus_prompts (k : String) : Option String :=
  if k = "main findings" then
    some "Focus on the main findings, results, and conclusions."
  else if k = "methodology" then
    some "Focus on the research methodology, experimental setup, and techniques used."
  else if k = "results" then
    some "Focus on the quantitative and qualitative results, performance metrics, and outcomes."
  else if k = "introduction" then
    some "Focus on the problem statement, motivation, and background."
  else if k = "full summary" then
    some "Provide a comprehensive summary covering all aspects."
  else
    none

/-- Embedding of the Python lower() call: character by character lower
casing of the string, written structurally over the character list so
that concrete instances evaluate. -/
def str_lower (s : String) : String :=
  String.mk (s.toList.map Char.toLower)

/-- The focus instruction actually used:
focus_prompts.get(focus_area.lower(), focus_prompts["main findings"]). -/
def focus_instruction_of (focus_area : String) : String :=
  (focus_prompts (str_lower focus_area)).getD "Focus on the main findings, results, and conclusions."

/-- The summarization prompt built by summarize_paper around the bounded
paper text. -/
def build_prompt (focus_instruction : String) (full_text : List Char) : String :=
  "You are analyzing a research paper. " ++ focus_instruction
    ++ "\n\nPlease provide a structured summary with:\n\n1. **Title & Authors** (if identifiable from the text)\n2. **Main Topic** (1-2 sentences)\n3. **Key Points** (3-5 bullet points based on focus area)\n4. **Main Contributions** (what\x27s new/novel)\n5. **Limitations** (if mentioned)\n\nKeep the summary concise but informative (300-500 words).\n\n---\n\nPAPER CONTENT:\n"
    ++ String.mk full_text
    ++ "\n\n---\n\nSTRUCTURED SUMMARY:"

/-- Embedding of summarize_paper from backend/tools/summarization_tool.py.
The three except clauses of the source map the three fault shapes of the
world to their descriptive texts; the success path extracts at most the
first 10 pages, joins them with newlines, bounds the text to 30000
characters, builds the focused prompt and wraps the model answer. -/
def summarize_paper (pdf_url : String) (focus_area : String)
    (world : SummarizeWorld) : String :=
  match world.fetch pdf_url with
  | SummarizeOutcome.request_error e =>
    "❌ Error downloading PDF: " ++ e ++ ". Please check if the URL is accessible."
  | SummarizeOutcome.pdf_read_error e =>
    "❌ Error reading PDF: " ++ e ++ ". The PDF may be corrupted or password-protected."
  | SummarizeOutcome.ok pages =>
    let text_content := extracted_pages pages
    let full_text := List.intercalate "\n".toList text_content
    let full_text := bounded_text full_text
    let prompt := build_prompt (focus_instruction_of focus_area) full_text
    match world.llm_call prompt with
    | Except.error e => "❌ Error summarizing paper: " ++ e
    | Except.ok summary =>
      "📄 **Paper Summary** (" ++ focus_area ++ "):\n\n" ++ summary

/-- Concrete configuration used by the witnesses: required credential
fields filled, every default kept, in particular the iteration ceiling
10. -/
def settings0 : Settings :=
  ⟨"groq-key", "google-key", "gemini-2.5-flash", (7 : ℚ) / 10, 10,
    "AI Research Assistant", "1.0.0"⟩

/-- A model oracle that requests the paper search tool on every turn. -/
def oracle0 : List Message → AIOutput :=
  fun _ => ⟨"Still researching", [⟨"search_arxiv", [("query", "transformers")]⟩]⟩

/-- A tool executor returning a fixed text payload. -/
def toolExec0 : ToolCall → String :=
  fun _ => "Found 1 research papers for the query"

/-- An assistant message carrying one tool-invocation request. -/
def msg_tools : Message :=
  ⟨Role.assistant, "Let me search", some [⟨"search_arxiv", [("query", "AI agents")]⟩]⟩

/-- An assistant message carrying zero tool-invocation requests. -/
def msg_plain : Message :=
  ⟨Role.assistant, "Here is the final answer", some []⟩

/-- A human message, which has no tool_calls attribute at all. -/
def msg_human : Message :=
  ⟨Role.human, "find papers about transformers", none⟩

/-- Routing value of a state whose history ends in a known message. -/
theorem should_continue_concat (settings : Settings) (l : List Message) (m : Message) (n : Nat) :
    should_continue settings ⟨l ++ [m], n⟩ =
      if n > settings.max_iterations then some "end"
      else if has_tool_calls m then some "tools" else some "end" := by
  simp [should_continue, List.getLast?_concat]

/-- A state routed to the tool node has its counter within the ceiling. -/
theorem should_continue_tools_le (settings : Settings) (st : AgentState)
    (h : should_continue settings st = some "tools") :
    st.iterations ≤ settings.max_iterations := by
  cases hL : st.messages.getLast? with
  | none => simp [should_continue, hL] at h
  | some m =>
    simp only [should_continue, hL] at h
    by_cases hgt : st.iterations > settings.max_iterations
    · simp [hgt] at h
    · omega

/-- Assistant message count distributes over history concatenation. -/
theorem assistant_count_append (a b : List Message) :
    assistant_count (a ++ b) = assistant_count a + assistant_count b := by
  simp [assistant_count, List.countP_append]

/-- Tool result messages contribute no assistant messages. -/
theorem assistant_count_tool_node (toolExec : ToolCall → String) (r : Message) :
    assistant_count (tool_node_run toolExec r) = 0 := by
  simp only [assistant_count, tool_node_run, List.countP_eq_zero]
  intro a ha
  obtain ⟨tc, _, rfl⟩ := List.mem_map.mp ha
  simp

/-- A single model response contributes exactly one assistant message. -/
theorem assistant_count_single_assistant (o : AIOutput) :
    assistant_count [AIOutput.toMessage o] = 1 := by
  simp [assistant_count, AIOutput.toMessage, List.countP_cons]

/-- The loop driver never reports more than ceiling plus one reasoning
steps, by induction on the remaining budget. -/
theorem invoke_iterations_le (settings : Settings) (oracle : List Message → AIOutput)
    (toolExec : ToolCall → String) :
    ∀ (d : Nat) (s : AgentState),
      settings.max_iterations + 1 - s.iterations ≤ d →
      s.iterations ≤ settings.max_iterations →
      (research_agent_invoke settings oracle toolExec s).iterations
        ≤ settings.max_iterations + 1 := by
  intro d
  induction d with
  | zero => intro s h1 h2; exact absurd h1 (by omega)
  | succ d ih =>
    intro s h1 h2
    unfold research_agent_invoke
    split
    case isTrue h =>
      have hle : s.iterations + 1 ≤ settings.max_iterations :=
        should_continue_tools_le settings _ h
      exact ih _ (by show settings.max_iterations + 1 - (s.iterations + 1) ≤ d; omega) hle
    case isFalse h =>
      show s.iterations + 1 ≤ settings.max_iterations + 1
      omega

/-- The history returned by the loop driver always ends in the assistant
message of the final reasoning step. -/
theorem invoke_last_assistant (settings : Settings) (oracle : List Message → AIOutput)
    (toolExec : ToolCall → String) :
    ∀ (d : Nat) (s : AgentState),
      settings.max_iterations + 1 - s.iterations ≤ d →
      ∃ o : AIOutput,
        (research_agent_invoke settings oracle toolExec s).messages.getLast?
          = some (AIOutput.toMessage o) := by
  intro d
  induction d with
  | zero =>
    intro s h1
    unfold research_agent_invoke
    split
    case isTrue h =>
      have hle : s.iterations + 1 ≤ settings.max_iterations :=
        should_continue_tools_le settings _ h
      exact absurd hle (by omega)
    case isFalse h =>
      exact ⟨oracle s.messages, by simp [List.getLast?_concat]⟩
  | succ d ih =>
    intro s h1
    unfold research_agent_invoke
    split
    case isTrue h =>
      have hle : s.iterations + 1 ≤ settings.max_iterations :=
        should_continue_tools_le settings _ h
      exact ih _ (by show settings.max_iterations + 1 - (s.iterations + 1) ≤ d; omega)
    case isFalse h =>
      exact ⟨oracle s.messages, by simp [List.getLast?_concat]⟩

/-- Under an oracle that requests tools on every turn, the loop driver
runs the reasoning step exactly until the counter passes the ceiling:
the final count is ceiling plus one and each remaining budget unit
contributes exactly one assistant message. -/
theorem invoke_all_tools (settings : Settings) (oracle : List Message → AIOutput)
    (toolExec : ToolCall → String)
    (HT : ∀ msgs, (oracle msgs).tool_calls ≠ []) :
    ∀ (d : Nat) (s : AgentState),
      settings.max_iterations + 1 - s.iterations = d →
      s.iterations ≤ settings.max_iterations →
      (research_agent_invoke settings oracle toolExec s).iterations
          = settings.max_iterations + 1
      ∧ assistant_count (research_agent_invoke settings oracle toolExec s).messages
          = assistant_count s.messages + d := by
  intro d
  induction d with
  | zero => intro s h1 h2; exact absurd h1 (by omega)
  | succ d ih =>
    intro s h1 h2
    have htc : has_tool_calls (AIOutput.toMessage (oracle s.messages)) = true := by
      cases hcase : (oracle s.messages).tool_calls with
      | nil => exact absurd hcase (HT s.messages)
      | cons a l => simp [has_tool_calls, AIOutput.toMessage, hcase]
    unfold research_agent_invoke
    split
    case isTrue h =>
      have hle : s.iterations + 1 ≤ settings.max_iterations :=
        should_continue_tools_le settings _ h
      obtain ⟨ihi, ihc⟩ := ih
        ⟨(s.messages ++ [AIOutput.toMessage (oracle s.messages)])
            ++ tool_node_run toolExec (AIOutput.toMessage (oracle s.messages)),
          s.iterations + 1⟩
        (by show settings.max_iterations + 1 - (s.iterations + 1) = d; omega) hle
      refine ⟨ihi, ?_⟩
      rw [ihc]
      show assistant_count
          ((s.messages ++ [AIOutput.toMessage (oracle s.messages)])
            ++ tool_node_run toolExec (AIOutput.toMessage (oracle s.messages)))
          + d = assistant_count s.messages + (d + 1)
      rw [assistant_count_append, assistant_count_append,
        assistant_count_single_assistant, assistant_count_tool_node]
      omega
    case isFalse h =>
      have heq : s.iterations = settings.max_iterations := by
        by_contra hne
        apply h
        rw [should_continue_concat settings s.messages
          (AIOutput.toMessage (oracle s.messages)) (s.iterations + 1)]
        rw [if_neg (by omega), if_pos htc]
      constructor
      · show s.iterations + 1 = settings.max_iterations + 1
        omega
      · show assistant_count (s.messages ++ [AIOutput.toMessage (oracle s.messages)])
            = assistant_count s.messages + (d + 1)
        rw [assistant_count_append, assistant_count_single_assistant]
        omega

/-- C1: for every agent state whose iteration counter exceeds the
configured ceiling, should_continue routes to "end" regardless of the
tool-call content of the last message; the ceiling check precedes the
tool-call check. -/
theorem should_continue_ceiling_cutoff (settings : Settings) (state : AgentState)
    (hne : state.messages ≠ [])
    (hgt : state.iterations > settings.max_iterations) :
    should_continue settings state = some "end" := by
  obtain ⟨m, hm⟩ := Option.isSome_iff_exists.mp (List.getLast?_isSome.mpr hne)
  simp [should_continue, hm, hgt]

/-- Witness for C1: a state at iteration 11 with ceiling 10 whose last
message does carry a tool-invocation request is still routed to "end". -/
theorem should_continue_ceiling_cutoff_witness :
    should_continue settings0 ⟨[msg_human, msg_tools], 11⟩ = some "end"
    ∧ has_tool_calls msg_tools = true :=
  ⟨should_continue_ceiling_cutoff settings0 ⟨[msg_human, msg_tools], 11⟩
      (by simp) (by decide),
    by decide⟩

/-- C2: for every agent state with iteration counter within the ceiling,
should_continue routes to "tools" exactly when the last message carries at
least one tool-invocation request and to "end" when it carries none. -/
theorem should_continue_tool_routing (settings : Settings) (state : AgentState) (m : Message)
    (hlast : state.messages.getLast? = some m)
    (hle : state.iterations ≤ settings.max_iterations) :
    (m.tool_calls.getD [] ≠ [] → should_continue settings state = some "tools")
    ∧ (m.tool_calls.getD [] = [] → should_continue settings state = some "end") := by
  have hng : ¬ state.iterations > settings.max_iterations := by omega
  constructor
  · intro htc
    have hb : has_tool_calls m = true := by
      cases hc : m.tool_calls with
      | none => simp [hc] at htc
      | some l =>
        cases l with
        | nil => simp [hc] at htc
        | cons a t => simp [has_tool_calls, hc]
    simp [should_continue, hlast, hng, hb]
  · intro htc
    have hb : has_tool_calls m = false := by
      cases hc : m.tool_calls with
      | none => simp [has_tool_calls, hc]
      | some l =>
        cases l with
        | nil => simp [has_tool_calls, hc]
        | cons a t => simp [hc] at htc
    simp [should_continue, hlast, hng, hb]

/-- Witness for C2: at iteration 1 a tool-requesting last message routes
to "tools", and at iteration 2 a plain answer routes to "end". -/
theorem should_continue_tool_routing_witness :
    should_continue settings0 ⟨[msg_human, msg_tools], 1⟩ = some "tools"
    ∧ should_continue settings0 ⟨[msg_human, msg_plain], 2⟩ = some "end" :=
  ⟨(should_continue_tool_routing settings0 ⟨[msg_human, msg_tools], 1⟩ msg_tools
        rfl (by decide)).1 (by decide),
    (should_continue_tool_routing settings0 ⟨[msg_human, msg_plain], 2⟩ msg_plain
        rfl (by decide)).2 (by decide)⟩

/-- Success path of the loop driver boundary: when the agent invocation
returns a state whose history ends in a known message, the result record
carries that message content, the reported iteration count and the true
flag. -/
theorem run_research_query_ok (invoke : AgentState → Except String AgentState)
    (query : String) (result : AgentState) (m : Message)
    (hok : invoke (initial_state query) = Except.ok result)
    (hlast : result.messages.getLast? = some m) :
    run_research_query invoke query = ⟨m.content, result.iterations, true⟩ := by
  unfold run_research_query
  rw [hok]
  dsimp only
  rw [hlast]

/-- C3: the loop driver always terminates. For every model oracle it
reports at most ceiling plus one reasoning steps, and with ceiling 10 and
an oracle that requests tools on all turns, run_research_query still
returns success true with the content of the eleventh assistant message,
which closes the final history, as the response. -/
theorem agent_loop_terminates :
    (∀ (settings : Settings) (oracle : List Message → AIOutput)
        (toolExec : ToolCall → String) (query : String),
        (research_agent_invoke settings oracle toolExec (initial_state query)).iterations
          ≤ settings.max_iterations + 1)
    ∧ (∀ (settings : Settings) (oracle : List Message → AIOutput)
        (toolExec : ToolCall → String) (query : String),
        settings.max_iterations = 10 →
        (∀ msgs, (oracle msgs).tool_calls ≠ []) →
        ∃ m : Message,
          (research_agent_invoke settings oracle toolExec (initial_state query)).messages.getLast?
              = some m
          ∧ m.role = Role.assistant
          ∧ assistant_count
              (research_agent_invoke settings oracle toolExec (initial_state query)).messages = 11
          ∧ run_research_query
              (fun s => Except.ok (research_agent_invoke settings oracle toolExec s)) query
              = ⟨m.content, 11, true⟩) := by
  constructor
  · intro settings oracle toolExec query
    exact invoke_iterations_le settings oracle toolExec (settings.max_iterations + 1)
      (initial_state query)
      (by show settings.max_iterations + 1 - 0 ≤ settings.max_iterations + 1; omega)
      (Nat.zero_le _)
  · intro settings oracle toolExec query hmax HT
    obtain ⟨o, ho⟩ := invoke_last_assistant settings oracle toolExec
      (settings.max_iterations + 1) (initial_state query)
      (by show settings.max_iterations + 1 - 0 ≤ settings.max_iterations + 1; omega)
    obtain ⟨h1, h2⟩ := invoke_all_tools settings oracle toolExec HT
      (settings.max_iterations + 1) (initial_state query)
      (by show settings.max_iterations + 1 - 0 = settings.max_iterations + 1; omega)
      (Nat.zero_le _)
    refine ⟨AIOutput.toMessage o, ho, rfl, ?_, ?_⟩
    · rw [h2]
      have hz : assistant_count (initial_state query).messages = 0 := by
        simp [initial_state, assistant_count]
      rw [hz, hmax]
    · have hq := run_research_query_ok
        (fun s => Except.ok (research_agent_invoke settings oracle toolExec s)) query
        (research_agent_invoke settings oracle toolExec (initial_state query))
        (AIOutput.toMessage o) rfl ho
      rw [hq, h1, hmax]

/-- Witness for C3: the concrete ceiling 10 configuration with an oracle
that always requests the paper search tool still yields a success result
after eleven reasoning steps. -/
theorem agent_loop_terminates_witness :
    ∃ m : Message,
      (research_agent_invoke settings0 oracle0 toolExec0
          (initial_state "find papers about AI")).messages.getLast? = some m
      ∧ m.role = Role.assistant
      ∧ assistant_count (research_agent_invoke settings0 oracle0 toolExec0
          (initial_state "find papers about AI")).messages = 11
      ∧ run_research_query
          (fun s => Except.ok (research_agent_invoke settings0 oracle0 toolExec0 s))
          "find papers about AI"
          = ⟨m.content, 11, true⟩ :=
  agent_loop_terminates.2 settings0 oracle0 toolExec0 "find papers about AI" rfl
    (fun msgs => by simp [oracle0])

/-- Counterexample for C4: at a concrete configuration the bound tool set
of the reasoning step does not contain the resource discovery adapter (nor
the PDF summarization adapter), so the model is not configured with all
four adapters. -/
theorem bound_tools_not_all_four :
    ¬ (Tool.find_learning_resources ∈ (llm_with_tools settings0).bound_tools
        ∧ Tool.summarize_paper ∈ (llm_with_tools settings0).bound_tools) := by
  intro h
  have := h.1
  simp [llm_with_tools, bind_tools, tools] at this

/-- C4 amended: before any invocation the reasoning step is configured via
bind_tools with exactly two tool adapters, paper search and web search;
the resource discovery and PDF summarization adapters are defined but not
bound. -/
theorem bound_tools_exactly_two (settings : Settings) :
    (llm_with_tools settings).bound_tools = [Tool.search_arxiv, Tool.search_web]
    ∧ Tool.find_learning_resources ∉ (llm_with_tools settings).bound_tools
    ∧ Tool.summarize_paper ∉ (llm_with_tools settings).bound_tools := by
  refine ⟨rfl, ?_, ?_⟩ <;> simp [llm_with_tools, bind_tools, tools]

/-- C5: an uncaught exception reaching the run_research_query boundary is
converted into a record with the apologetic message, iterations 0 and
success false, never propagated. -/
theorem run_research_query_error_result (invoke : AgentState → Except String AgentState)
    (query e : String)
    (h : invoke (initial_state query) = Except.error e) :
    run_research_query invoke query =
      ⟨"I encountered an error: " ++ e ++ ". Please try rephrasing your question.",
        0, false⟩ := by
  unfold run_research_query
  rw [h]

/-- Witness for C5: a concrete fault text produces the concrete failure
record. -/
theorem run_research_query_error_result_witness :
    run_research_query (fun _ => Except.error "Network unreachable") "find papers" =
      ⟨"I encountered an error: " ++ "Network unreachable"
          ++ ". Please try rephrasing your question.", 0, false⟩ :=
  run_research_query_error_result (fun _ => Except.error "Network unreachable")
    "find papers" "Network unreachable" rfl

/-- C6: every tool adapter is total at its boundary. A fault raised by the
external collaborator at any point of the body is converted into the
descriptive error text of the matching except clause and returned as an
ordinary string, and a degenerate input such as an empty query still
yields a text result; no adapter propagates an exception, which in this
embedding is witnessed by each adapter being a total function into String
together with the explicit value of every fault branch. -/
theorem tool_adapters_never_raise :
    (∀ (query : String) (max_results : Int) (e : String),
        search_arxiv query max_results (Except.error e)
          = "Error searching arXiv: " ++ e ++ ". Please try again with a different query.")
    ∧ (∀ (query : String) (max_results : Int) (e : String),
        search_web query max_results (Except.error e)
          = "Error searching web: " ++ e ++ ". Please try again.")
    ∧ (∀ (topic resource_type e : String),
        find_learning_resources topic resource_type (fun _ => Except.error e)
          = "❌ Error finding resources: " ++ e)
    ∧ (∀ (pdf_url focus_area e : String) (g : String → Except String String),
        summarize_paper pdf_url focus_area ⟨fun _ => SummarizeOutcome.request_error e, g⟩
          = "❌ Error downloading PDF: " ++ e ++ ". Please check if the URL is accessible.")
    ∧ (∀ (pdf_url focus_area e : String) (g : String → Except String String),
        summarize_paper pdf_url focus_area ⟨fun _ => SummarizeOutcome.pdf_read_error e, g⟩
          = "❌ Error reading PDF: " ++ e ++ ". The PDF may be corrupted or password-protected.")
    ∧ (∀ (pdf_url focus_area e : String) (pages : List (List Char)),
        summarize_paper pdf_url focus_area
            ⟨fun _ => SummarizeOutcome.ok pages, fun _ => Except.error e⟩
          = "❌ Error summarizing paper: " ++ e)
    ∧ (∀ (max_results : Int),
        search_arxiv "" max_results (Except.ok [])
          = "No papers found for query: \x27\x27. Try different keywords or broader terms.") := by
  refine ⟨fun q m e => rfl, fun q m e => rfl, fun t r e => rfl,
    fun a b e g => rfl, fun a b e g => rfl, fun a b e p => rfl, fun m => ?_⟩
  simp [search_arxiv, search_arxiv_results]

/-- C7: both search adapters clamp the caller-requested result count to a
hard maximum of 10, so for every requested max_results, including 1000,
the list of formatted entries has at most 10 elements. -/
theorem max_results_clamped :
    (∀ (max_results : Int) (stream : List Paper),
        (search_arxiv_results max_results stream).length ≤ 10)
    ∧ (∀ (max_results : Int) (stream : List WebResult),
        (search_web_results max_results stream).length ≤ 10) := by
  constructor <;> intro m stream <;>
    simp only [search_arxiv_results, search_web_results, List.length_take] <;> omega

/-- C8: get_settings constructs the Settings object at most once per
process. A second call returns the same instance and leaves the process
state unchanged, and even a changed environment after the first call does
not alter the returned configuration values. -/
theorem get_settings_cached (s : ProcState) (e2 : Env) :
    (get_settings (get_settings s).2).1 = (get_settings s).1
    ∧ (get_settings (get_settings s).2).2 = (get_settings s).2
    ∧ (get_settings { (get_settings s).2 with env := e2 }).1 = (get_settings s).1 := by
  cases h : s.settings_cache <;> simp [get_settings, h]

/-- C9: unrecognized enumeration arguments fall back silently to the
default. A resource_type outside the four known keys selects the courses
search query, and a focus_area whose lowercase form is outside the five
known options selects the main findings instruction. -/
theorem unknown_enum_fallback :
    (∀ (topic resource_type : String),
        resource_type ∉ (["courses", "tutorials", "books", "videos"] : List String) →
        resource_query topic resource_type
          = topic ++ " online course Coursera edX Udacity")
    ∧ (∀ (focus_area : String),
        str_lower focus_area ∉
            (["main findings", "methodology", "results", "introduction",
              "full summary"] : List String) →
        focus_instruction_of focus_area
          = "Focus on the main findings, results, and conclusions.") := by
  constructor
  · intro t rt h
    have h1 : rt ≠ "courses" := fun he => h (by simp [he])
    have h2 : rt ≠ "tutorials" := fun he => h (by simp [he])
    have h3 : rt ≠ "books" := fun he => h (by simp [he])
    have h4 : rt ≠ "videos" := fun he => h (by simp [he])
    simp [resource_query, search_queries, h1, h2, h3, h4]
  · intro fa h
    have h1 : str_lower fa ≠ "main findings" := fun he => h (by simp [he])
    have h2 : str_lower fa ≠ "methodology" := fun he => h (by simp [he])
    have h3 : str_lower fa ≠ "results" := fun he => h (by simp [he])
    have h4 : str_lower fa ≠ "introduction" := fun he => h (by simp [he])
    have h5 : str_lower fa ≠ "full summary" := fun he => h (by simp [he])
    simp [focus_instruction_of, focus_prompts, h1, h2, h3, h4, h5]

/-- Witness for C9: the unknown resource type podcasts runs the courses
query and the unknown focus area Abstract uses the main findings
instruction. -/
theorem unknown_enum_fallback_witness :
    ("podcasts" ∉ (["courses", "tutorials", "books", "videos"] : List String)
      ∧ resource_query "deep learning" "podcasts"
          = "deep learning online course Coursera edX Udacity")
    ∧ (str_lower "Abstract" ∉
          (["main findings", "methodology", "results", "introduction",
            "full summary"] : List String)
      ∧ focus_instruction_of "Abstract"
          = "Focus on the main findings, results, and conclusions.") :=
  ⟨⟨by decide, unknown_enum_fallback.1 "deep learning" "podcasts" (by decide)⟩,
    ⟨by decide, unknown_enum_fallback.2 "Abstract" (by decide)⟩⟩

/-- C10: summarize_paper bounds its model input. Page extraction keeps
exactly the first 10 pages of the parsed PDF, and extracted text longer
than 30000 characters is cut to exactly its first 30000 characters
followed by the truncation notice; shorter text passes unchanged. -/
theorem summarize_paper_input_bounded :
    (∀ pages : List (List Char), extracted_pages pages = pages.take 10)
    ∧ (∀ t : List Char, t.length > 30000 →
        bounded_text t = t.take 30000 ++ truncated_suffix
        ∧ (t.take 30000).length = 30000)
    ∧ (∀ t : List Char, ¬ t.length > 30000 → bounded_text t = t) := by
  refine ⟨?_, ?_, ?_⟩
  · intro pages
    unfold extracted_pages
    rcases Nat.le_total pages.length 10 with h | h
    · rw [Nat.min_eq_left h, List.take_length, List.take_of_length_le h]
    · rw [Nat.min_eq_right h]
  · intro t ht
    refine ⟨?_, ?_⟩
    · unfold bounded_text
      rw [if_pos ht]
    · rw [List.length_take]
      omega
  · intro t ht
    unfold bounded_text
    rw [if_neg ht]

/-- Witness for C10: a 30001 character text is longer than the bound and
is truncated to exactly 30000 characters plus the notice. -/
theorem summarize_paper_input_bounded_witness :
    (List.replicate 30001 'a').length > 30000
    ∧ bounded_text (List.replicate 30001 'a')
        = (List.replicate 30001 'a').take 30000 ++ truncated_suffix
    ∧ ((List.replicate 30001 'a').take 30000).length = 30000 :=
  ⟨by simp only [List.length_replicate]; omega,
    summarize_paper_input_bounded.2.1 (List.replicate 30001 'a')
      (by simp only [List.length_replicate]; omega)⟩
